import Mathlib

/-!
Verification of the request-replayer scripts in `export_tests/`.

The repository holds three short Python scripts, each of which reads an
API key from the process environment, builds one fixed request payload,
issues a single call to a provider endpoint, and prints the decoded
response as pretty JSON:

  * `export_tests/anthropic/python-http.py`  (raw HTTP via `requests`)
  * `export_tests/anthropic/python-sdk.py`   (vendor client library)
  * `export_tests/openai/python-sdk.py`      (second vendor client library)

Each script is shallowly embedded as a pure function from its inputs
(the environment value it reads and the response the endpoint returns)
to a trace recording the outcome, the list of network calls issued, and
the list of writes to standard output.
-/

/-- A JSON document, as built and printed by the scripts.  Numbers in all
three payloads are integers, so numeric leaves carry `Int`.  Object fields
keep insertion order, as Python dicts do. -/
inductive Json where
  | null : Json
  | bool (b : Bool) : Json
  | num (n : Int) : Json
  | str (s : String) : Json
  | arr (elems : List Json) : Json
  | obj (fields : List (String × Json)) : Json

/-- Lowercase hexadecimal digit, as produced by the Python `json` encoder. -/
def hexDigit (n : Nat) : Char :=
  if n < 10 then Char.ofNat (48 + n) else Char.ofNat (87 + n)

/-- Four lowercase hex digits, the payload of a `\uXXXX` escape. -/
def hex4 (n : Nat) : String :=
  String.mk [hexDigit (n / 4096 % 16), hexDigit (n / 256 % 16),
             hexDigit (n / 16 % 16), hexDigit (n % 16)]

/-- Escape one character the way `json.dumps` with default `ensure_ascii`
does: the two-character escapes for quote, backslash and common control
characters, `\uXXXX` for every other character outside printable ASCII,
surrogate pairs above the basic plane. -/
def escapeChar (c : Char) : String :=
  if c = Char.ofNat 34 then "\\\""
  else if c = Char.ofNat 92 then "\\\\"
  else if c = Char.ofNat 10 then "\\n"
  else if c = Char.ofNat 9 then "\\t"
  else if c = Char.ofNat 13 then "\\r"
  else if c = Char.ofNat 8 then "\\b"
  else if c = Char.ofNat 12 then "\\f"
  else if c.toNat < 32 ∨ 127 ≤ c.toNat then
    if c.toNat < 65536 then "\\u" ++ hex4 c.toNat
    else
      let n := c.toNat - 65536
      "\\u" ++ hex4 (55296 + n / 1024) ++ "\\u" ++ hex4 (56320 + n % 1024)
  else String.singleton c

/-- A JSON string literal: quotes around the escaped characters. -/
def jsonEscape (s : String) : String :=
  "\"" ++ String.join (s.data.map escapeChar) ++ "\""

/-- The string of `n` spaces used for indentation. -/
def nspaces (n : Nat) : String :=
  String.mk (List.replicate n (Char.ofNat 32))

mutual
/-- Model of `json.dumps(x, indent=2)` at current indentation `ind`:
containers open on their own line, members are indented two further
spaces and separated by `,\n`, and the closer returns to `ind`. -/
def dumpJson : Nat → Json → String
  | _, .null => "null"
  | _, .bool b => if b then "true" else "false"
  | _, .num n => toString n
  | _, .str s => jsonEscape s
  | _, .arr [] => "[]"
  | ind, .arr (x :: xs) =>
      "[\n" ++ nspaces (ind + 2) ++ dumpJson (ind + 2) x ++
        dumpArr (ind + 2) xs ++ "\n" ++ nspaces ind ++ "]"
  | _, .obj [] => "\x7b\x7d"
  | ind, .obj ((k, v) :: fs) =>
      "\x7b\n" ++ nspaces (ind + 2) ++ jsonEscape k ++ ": " ++
        dumpJson (ind + 2) v ++ dumpObj (ind + 2) fs ++ "\n" ++
        nspaces ind ++ "\x7d"

/-- Remaining array elements, each preceded by `,\n` and indentation. -/
def dumpArr : Nat → List Json → String
  | _, [] => ""
  | ind, x :: xs => ",\n" ++ nspaces ind ++ dumpJson ind x ++ dumpArr ind xs

/-- Remaining object fields, each preceded by `,\n` and indentation. -/
def dumpObj : Nat → List (String × Json) → String
  | _, [] => ""
  | ind, (k, v) :: fs =>
      ",\n" ++ nspaces ind ++ jsonEscape k ++ ": " ++ dumpJson ind v ++
        dumpObj ind fs
end

/-- The exact text handed to `print`: `json.dumps(data, indent=2)` at top
level. -/
def dumps (data : Json) : String := dumpJson 0 data

/-- How a run of a script terminates.  `ok` is a normal return; every
other constructor is an uncaught Python exception. -/
inductive Outcome where
  | ok : Outcome
  | configError (msg : String) : Outcome
  | httpStatusError (status : Nat) : Outcome
  | decodeError : Outcome
  | sdkError : Outcome

/-- The externally visible behaviour of one run: how it ended, the
network calls it issued in order, and the strings it passed to `print`
in order. -/
structure Trace (Call : Type) where
  outcome : Outcome
  calls : List Call
  stdout : List String

/-- Python process semantics for `if __name__ == "__main__": run()`: a
normal return exits 0, an uncaught exception exits 1. -/
def exitCode : Outcome → Nat
  | .ok => 0
  | _ => 1

namespace AnthropicHttp

/-!  Embedding of `export_tests/anthropic/python-http.py`. -/

/-- One call made through `requests.post`. -/
structure HttpRequest where
  url : String
  headers : List (String × String)
  body : Json

/-- What the stubbed endpoint answers: an HTTP status code and the JSON
parse of the response text (`none` when the text is not valid JSON, in
which case `response.json()` raises). -/
structure HttpResponse where
  status : Nat
  body : Option Json

/-- The message of the `RuntimeError` raised when the key is missing. -/
def missingKeyMsg : String :=
  "Set the ANTHROPIC_API_KEY environment variable before running this script."

/-- The `headers` dict built in `run`. -/
def headers (key : String) : List (String × String) :=
  [("Content-Type", "application/json"),
   ("x-api-key", key),
   ("anthropic-version", "2023-06-01")]

/-- The hard-coded `body` dict built in `run`. -/
def body : Json := Json.obj
  [("model", .str "claude-3-7-sonnet-latest"),
   ("messages", .arr
     [.obj [("role", .str "user"),
            ("content", .arr [.obj [("type", .str "text"),
                                    ("text", .str "test")]])]]),
   ("system", .str "You are a helpful, harmless, and honest AI assistant."),
   ("max_tokens", .num 4096)]

/-- The literal URL passed to `requests.post`. -/
def endpointUrl : String := "https://api.anthropic.com/v1/messages"

/-- `run()`.  `key` is the value of `ANTHROPIC_API_KEY` captured by
`os.environ.get` at module load (`none` when the variable is unset);
`resp` is what the endpoint returns to the single `requests.post`.
`if not ANTHROPIC_API_KEY` is Python falsiness, so it fires on both the
absent key and the empty string.  `response.raise_for_status()` raises
exactly for status codes in `[400, 600)`, before `response.json()` runs. -/
def run (key : Option String) (resp : HttpResponse) : Trace HttpRequest :=
  match key with
  | none => ⟨.configError missingKeyMsg, [], []⟩
  | some k =>
    if k = "" then ⟨.configError missingKeyMsg, [], []⟩
    else
      let req : HttpRequest := ⟨endpointUrl, headers k, body⟩
      if 400 ≤ resp.status ∧ resp.status < 600 then
        ⟨.httpStatusError resp.status, [req], []⟩
      else
        match resp.body with
        | some data => ⟨.ok, [req], [dumps data]⟩
        | none => ⟨.decodeError, [req], []⟩

/-- Two invocations of the script against the same environment and the
same endpoint behaviour; there is no state shared between them. -/
def runTwice (key : Option String) (resp : HttpResponse) :
    Trace HttpRequest × Trace HttpRequest :=
  (run key resp, run key resp)

end AnthropicHttp

namespace AnthropicSdk

/-!  Embedding of `export_tests/anthropic/python-sdk.py`. -/

/-- The client object built at module load: either
`anthropic.Anthropic(api_key=anthropic_api_key)` with the truthy key, or
the no-argument `anthropic.Anthropic()` default client. -/
inductive Client where
  | withKey (key : String) : Client
  | defaultClient : Client

/-- The module-level `client = anthropic.Anthropic(api_key=...) if
anthropic_api_key else anthropic.Anthropic()`: the conditional is Python
truthiness of the captured environment value. -/
def clientOf (anthropic_api_key : Option String) : Client :=
  match anthropic_api_key with
  | none => .defaultClient
  | some k => if k = "" then .defaultClient else .withKey k

/-- One call to `client.messages.create`, recording the client it went
through and the keyword arguments it carried. -/
structure SdkCall where
  client : Client
  params : Json

/-- The keyword arguments of the `client.messages.create(...)` call,
verbatim from the script. -/
def createParams : Json := Json.obj
  [("model", .str "claude-3-7-sonnet-latest"),
   ("messages", .arr
     [.obj [("role", .str "user"),
            ("content", .arr [.obj [("type", .str "text"),
                                    ("text", .str "test")]])]]),
   ("system", .str "You are a helpful, harmless, and honest AI assistant."),
   ("max_tokens", .num 4096)]

/-- What the client library hands back for the single `create` call:
either the decoded response object, given here by its `to_dict()` form,
or a raised library error (authentication or API failure). -/
inductive SdkReply where
  | success (body : Json) : SdkReply
  | failure : SdkReply

/-- `run()`.  The script performs no credential check of its own: it
calls `client.messages.create` unconditionally with the literal keyword
arguments, converts the response with `to_dict()` (response objects of
this library have it) and prints `json.dumps(response_data, indent=2)`. -/
def run (client : Client) (reply : SdkReply) : Trace SdkCall :=
  match reply with
  | .failure => ⟨.sdkError, [⟨client, createParams⟩], []⟩
  | .success b => ⟨.ok, [⟨client, createParams⟩], [dumps b]⟩

/-- Two invocations against the same module state and endpoint. -/
def runTwice (client : Client) (reply : SdkReply) :
    Trace SdkCall × Trace SdkCall :=
  (run client reply, run client reply)

end AnthropicSdk

namespace OpenAISdk

/-!  Embedding of `export_tests/openai/python-sdk.py`. -/

/-- The client object: the script builds it at module load with
`OpenAI(api_key=os.environ.get("OPENAI_API_KEY"))`, passing the looked-up
value through unchanged, `None` included. -/
structure Client where
  api_key : Option String

/-- The module-level client construction: the value of `OPENAI_API_KEY`
is read from the environment once and handed directly to the
constructor.  `env` is the process environment as a lookup function. -/
def moduleClient (env : String → Option String) : Client :=
  ⟨env "OPENAI_API_KEY"⟩

/-- One call to `client.responses.create`, recording the client and the
payload splatted into it. -/
structure SdkCall where
  client : Client
  payload : Json

/-- The hard-coded `payload` dict built in `run` and splatted into
`client.responses.create(**payload)`, verbatim from the script. -/
def payload : Json := Json.obj
  [("model", .str "gpt-5"),
   ("input", .arr
     [.obj [("id", .str "msg_0"),
            ("type", .str "message"),
            ("role", .str "system"),
            ("content", .arr
              [.obj [("type", .str "input_text"),
                     ("text", .str "You are a helpful, harmless, and honest AI assistant. Respond in markdown.")]])],
      .obj [("id", .str "msg_1"),
            ("type", .str "message"),
            ("role", .str "user"),
            ("content", .arr
              [.obj [("type", .str "input_text"),
                     ("text", .str "test")]])],
      .obj [("id", .str "rs_68d39a4339448190a582291f687b00ea"),
            ("type", .str "reasoning"),
            ("summary", .arr
              [.obj [("type", .str "summary_text"),
                     ("text", .str "")]])],
      .obj [("id", .str "msg_68d39a4358588190adda53c94e3054f5"),
            ("type", .str "message"),
            ("role", .str "assistant"),
            ("content", .arr
              [.obj [("type", .str "output_text"),
                     ("text", .str "Hi! I\u2019m here and working. How can I help you today?")]])]]),
   ("max_output_tokens", .num 8000),
   ("reasoning", .obj [("effort", .str "low"), ("summary", .str "detailed")])]

/-- What the client library hands back for the single `create` call:
either the decoded response object, given by its `model_dump()` form, or
a raised library error. -/
inductive SdkReply where
  | success (body : Json) : SdkReply
  | failure : SdkReply

/-- `run()`.  No credential check of any kind: the call is issued
unconditionally through the module-level client, and on success
`json.dumps(response.model_dump(), indent=2)` is printed. -/
def run (client : Client) (reply : SdkReply) : Trace SdkCall :=
  match reply with
  | .failure => ⟨.sdkError, [⟨client, payload⟩], []⟩
  | .success b => ⟨.ok, [⟨client, payload⟩], [dumps b]⟩

/-- A whole process invocation, with the third-party constructor
`OpenAI(...)` left abstract as `ctor` (it is library code, outside this
repository): module load calls `ctor` on the looked-up key value; if the
constructor raises (returns `none`, e.g. on a missing credential) the module
load fails and `run` is never reached; otherwise `run` executes
against the endpoint reply. -/
def process (ctor : Option String → Option Client)
    (env : String → Option String) (reply : SdkReply) : Trace SdkCall :=
  match ctor (env "OPENAI_API_KEY") with
  | none => ⟨.sdkError, [], []⟩
  | some c => run c reply

/-- Two invocations against the same module state and endpoint. -/
def runTwice (client : Client) (reply : SdkReply) :
    Trace SdkCall × Trace SdkCall :=
  (run client reply, run client reply)

end OpenAISdk

/-- C1: with a valid credential, the request body each script sends is
exactly the hard-coded literal payload defined in that script, with no
field added, dropped or altered between construction and send: the raw
HTTP script posts `body` (with its literal URL and headers), the vendor
SDK script passes `createParams`, and the second vendor script passes
`payload`, whatever the endpoint then answers. -/
theorem request_body_is_literal_payload
    (k : String) (hk : k ≠ "") (resp : AnthropicHttp.HttpResponse)
    (c : AnthropicSdk.Client) (r : AnthropicSdk.SdkReply)
    (oc : OpenAISdk.Client) (orr : OpenAISdk.SdkReply) :
    (AnthropicHttp.run (some k) resp).calls =
      [⟨AnthropicHttp.endpointUrl, AnthropicHttp.headers k, AnthropicHttp.body⟩] ∧
    (AnthropicSdk.run c r).calls = [⟨c, AnthropicSdk.createParams⟩] ∧
    (OpenAISdk.run oc orr).calls = [⟨oc, OpenAISdk.payload⟩] := by
  refine ⟨?_, ?_, ?_⟩
  · simp only [AnthropicHttp.run, hk, if_false, reduceIte]
    split
    · rfl
    · split <;> rfl
  · cases r <;> rfl
  · cases orr <;> rfl

/-- C1 witness at a concrete key, endpoint response and clients. -/
theorem request_body_is_literal_payload_witness :
    (AnthropicHttp.run (some "sk-test") ⟨200, some (Json.obj [])⟩).calls =
      [⟨AnthropicHttp.endpointUrl, AnthropicHttp.headers "sk-test",
        AnthropicHttp.body⟩] ∧
    (AnthropicSdk.run .defaultClient (.success (Json.obj []))).calls =
      [⟨.defaultClient, AnthropicSdk.createParams⟩] ∧
    (OpenAISdk.run ⟨none⟩ (.success (Json.obj []))).calls =
      [⟨⟨none⟩, OpenAISdk.payload⟩] :=
  request_body_is_literal_payload "sk-test" (by decide)
    ⟨200, some (Json.obj [])⟩ .defaultClient (.success (Json.obj []))
    ⟨none⟩ (.success (Json.obj []))

/-- C2: when `ANTHROPIC_API_KEY` is absent, the raw HTTP script raises
the `RuntimeError` configuration message, issues zero network calls and
writes nothing, whatever the endpoint would have answered. -/
theorem missing_key_fails_before_network (resp : AnthropicHttp.HttpResponse) :
    AnthropicHttp.run none resp =
      ⟨.configError AnthropicHttp.missingKeyMsg, [], []⟩ :=
  rfl

/-- C3: when the endpoint answers a 4xx or 5xx status, the raw HTTP
script propagates an HTTP status failure, writes nothing to standard
output, and never decodes the response body: the whole trace is the same
for every response body. -/
theorem error_status_fails_silently (k : String) (hk : k ≠ "")
    (status : Nat) (h4 : 400 ≤ status) (h6 : status < 600)
    (b : Option Json) :
    (AnthropicHttp.run (some k) ⟨status, b⟩).outcome = .httpStatusError status ∧
    (AnthropicHttp.run (some k) ⟨status, b⟩).stdout = [] ∧
    ∀ b' : Option Json,
      AnthropicHttp.run (some k) ⟨status, b⟩ =
        AnthropicHttp.run (some k) ⟨status, b'⟩ := by
  have hcond : 400 ≤ status ∧ status < 600 := ⟨h4, h6⟩
  refine ⟨?_, ?_, ?_⟩
  · simp only [AnthropicHttp.run, hk, if_false, reduceIte, if_pos hcond]
  · simp only [AnthropicHttp.run, hk, if_false, reduceIte, if_pos hcond]
  · intro b'
    simp only [AnthropicHttp.run, hk, if_false, reduceIte, if_pos hcond]

/-- C3 witness at a concrete key, a 404 status and a concrete body. -/
theorem error_status_fails_silently_witness :
    (AnthropicHttp.run (some "sk-test") ⟨404, some (Json.obj [])⟩).outcome =
      .httpStatusError 404 ∧
    (AnthropicHttp.run (some "sk-test") ⟨404, some (Json.obj [])⟩).stdout = [] ∧
    ∀ b' : Option Json,
      AnthropicHttp.run (some "sk-test") ⟨404, some (Json.obj [])⟩ =
        AnthropicHttp.run (some "sk-test") ⟨404, b'⟩ :=
  error_status_fails_silently "sk-test" (by decide) 404 (by decide) (by decide)
    (some (Json.obj []))

/-- C4: when the endpoint answers HTTP 200 with a well-formed JSON body,
each script completes normally and prints exactly
`json.dumps(body, indent=2)` to standard output. -/
theorem success_prints_pretty_response
    (k : String) (hk : k ≠ "") (j : Json)
    (c : AnthropicSdk.Client) (oc : OpenAISdk.Client) :
    AnthropicHttp.run (some k) ⟨200, some j⟩ =
      ⟨.ok, [⟨AnthropicHttp.endpointUrl, AnthropicHttp.headers k,
              AnthropicHttp.body⟩], [dumps j]⟩ ∧
    AnthropicSdk.run c (.success j) =
      ⟨.ok, [⟨c, AnthropicSdk.createParams⟩], [dumps j]⟩ ∧
    OpenAISdk.run oc (.success j) =
      ⟨.ok, [⟨oc, OpenAISdk.payload⟩], [dumps j]⟩ := by
  refine ⟨?_, rfl, rfl⟩
  simp only [AnthropicHttp.run, hk, if_false, reduceIte]
  rw [if_neg (by omega)]

/-- C4 witness at a concrete key, body and clients. -/
theorem success_prints_pretty_response_witness :
    AnthropicHttp.run (some "sk-test") ⟨200, some (Json.obj [])⟩ =
      ⟨.ok, [⟨AnthropicHttp.endpointUrl, AnthropicHttp.headers "sk-test",
              AnthropicHttp.body⟩], [dumps (Json.obj [])]⟩ ∧
    AnthropicSdk.run .defaultClient (.success (Json.obj [])) =
      ⟨.ok, [⟨.defaultClient, AnthropicSdk.createParams⟩],
       [dumps (Json.obj [])]⟩ ∧
    OpenAISdk.run ⟨none⟩ (.success (Json.obj [])) =
      ⟨.ok, [⟨⟨none⟩, OpenAISdk.payload⟩], [dumps (Json.obj [])]⟩ :=
  success_prints_pretty_response "sk-test" (by decide) (Json.obj [])
    .defaultClient ⟨none⟩

/-- A raw HTTP run that returned normally had a truthy key, a parseable
body, and produced exactly the single-call single-print trace. -/
theorem httpOkTrace (key : Option String) (resp : AnthropicHttp.HttpResponse)
    (h : (AnthropicHttp.run key resp).outcome = .ok) :
    ∃ k data, key = some k ∧ resp.body = some data ∧
      AnthropicHttp.run key resp =
        ⟨.ok, [⟨AnthropicHttp.endpointUrl, AnthropicHttp.headers k,
                AnthropicHttp.body⟩], [dumps data]⟩ := by
  match key with
  | none => simp [AnthropicHttp.run] at h
  | some k =>
    by_cases hk : k = ""
    · simp [AnthropicHttp.run, hk] at h
    · by_cases hs : 400 ≤ resp.status ∧ resp.status < 600
      · exfalso
        simp [AnthropicHttp.run, hk, if_pos hs] at h
      · cases hb : resp.body with
        | none =>
            exfalso
            simp [AnthropicHttp.run, hk, if_neg hs, hb] at h
        | some data =>
            exact ⟨k, data, rfl, rfl,
              by simp [AnthropicHttp.run, hk, if_neg hs, hb]⟩

/-- A vendor SDK run that returned normally got a successful reply and
produced exactly the single-call single-print trace. -/
theorem sdkOkTrace (c : AnthropicSdk.Client) (r : AnthropicSdk.SdkReply)
    (h : (AnthropicSdk.run c r).outcome = .ok) :
    ∃ b, r = .success b ∧
      AnthropicSdk.run c r =
        ⟨.ok, [⟨c, AnthropicSdk.createParams⟩], [dumps b]⟩ := by
  cases r with
  | failure => simp [AnthropicSdk.run] at h
  | success b => exact ⟨b, rfl, rfl⟩

/-- A second-vendor SDK run that returned normally got a successful
reply and produced exactly the single-call single-print trace. -/
theorem openaiOkTrace (c : OpenAISdk.Client) (r : OpenAISdk.SdkReply)
    (h : (OpenAISdk.run c r).outcome = .ok) :
    ∃ b, r = .success b ∧
      OpenAISdk.run c r = ⟨.ok, [⟨c, OpenAISdk.payload⟩], [dumps b]⟩ := by
  cases r with
  | failure => simp [OpenAISdk.run] at h
  | success b => exact ⟨b, rfl, rfl⟩

/-- C5: when the credential is absent or empty, the vendor SDK script
does not fail fast: module load builds the no-argument default client,
and `run` still issues its one `create` call through it, with no
credential check of its own. -/
theorem sdk_keyless_default_client_proceeds
    (key : Option String) (h : key = none ∨ key = some "")
    (reply : AnthropicSdk.SdkReply) :
    AnthropicSdk.clientOf key = .defaultClient ∧
    (AnthropicSdk.run (AnthropicSdk.clientOf key) reply).calls =
      [⟨.defaultClient, AnthropicSdk.createParams⟩] := by
  have hc : AnthropicSdk.clientOf key = .defaultClient := by
    rcases h with h | h <;> subst h <;> rfl
  refine ⟨hc, ?_⟩
  rw [hc]
  cases reply <;> rfl

/-- C5 witness at the absent key and a concrete reply. -/
theorem sdk_keyless_default_client_proceeds_witness :
    AnthropicSdk.clientOf none = .defaultClient ∧
    (AnthropicSdk.run (AnthropicSdk.clientOf none)
        (.success (Json.obj []))).calls =
      [⟨.defaultClient, AnthropicSdk.createParams⟩] :=
  sdk_keyless_default_client_proceeds none (Or.inl rfl)
    (.success (Json.obj []))

/-- C6: every successful run of each script issues exactly one network
call and makes exactly one write to standard output. -/
theorem success_one_call_one_print
    (key : Option String) (resp : AnthropicHttp.HttpResponse)
    (h1 : (AnthropicHttp.run key resp).outcome = .ok)
    (c : AnthropicSdk.Client) (r : AnthropicSdk.SdkReply)
    (h2 : (AnthropicSdk.run c r).outcome = .ok)
    (oc : OpenAISdk.Client) (orr : OpenAISdk.SdkReply)
    (h3 : (OpenAISdk.run oc orr).outcome = .ok) :
    (AnthropicHttp.run key resp).calls.length = 1 ∧
    (AnthropicHttp.run key resp).stdout.length = 1 ∧
    (AnthropicSdk.run c r).calls.length = 1 ∧
    (AnthropicSdk.run c r).stdout.length = 1 ∧
    (OpenAISdk.run oc orr).calls.length = 1 ∧
    (OpenAISdk.run oc orr).stdout.length = 1 := by
  obtain ⟨k, d, -, -, e1⟩ := httpOkTrace key resp h1
  obtain ⟨b, -, e2⟩ := sdkOkTrace c r h2
  obtain ⟨b', -, e3⟩ := openaiOkTrace oc orr h3
  rw [e1, e2, e3]
  exact ⟨rfl, rfl, rfl, rfl, rfl, rfl⟩

/-- C6 witness at concrete successful runs of all three scripts. -/
theorem success_one_call_one_print_witness :
    (AnthropicHttp.run (some "sk-test") ⟨200, some (Json.obj [])⟩).calls.length = 1 ∧
    (AnthropicHttp.run (some "sk-test") ⟨200, some (Json.obj [])⟩).stdout.length = 1 ∧
    (AnthropicSdk.run .defaultClient (.success (Json.obj []))).calls.length = 1 ∧
    (AnthropicSdk.run .defaultClient (.success (Json.obj []))).stdout.length = 1 ∧
    (OpenAISdk.run ⟨none⟩ (.success (Json.obj []))).calls.length = 1 ∧
    (OpenAISdk.run ⟨none⟩ (.success (Json.obj []))).stdout.length = 1 :=
  success_one_call_one_print (some "sk-test") ⟨200, some (Json.obj [])⟩ rfl
    .defaultClient (.success (Json.obj [])) rfl
    ⟨none⟩ (.success (Json.obj [])) rfl

/-- C7: the process exits non-zero through an unhandled failure when the
credential is missing or the remote call fails, and exits zero on
success after printing the response. -/
theorem process_exit_codes
    (resp : AnthropicHttp.HttpResponse) (k : String) (hk : k ≠ "")
    (status : Nat) (h4 : 400 ≤ status) (h6 : status < 600)
    (b : Option Json) (j : Json) (c : AnthropicSdk.Client) :
    exitCode (AnthropicHttp.run none resp).outcome = 1 ∧
    exitCode (AnthropicHttp.run (some k) ⟨status, b⟩).outcome = 1 ∧
    exitCode (AnthropicHttp.run (some k) ⟨200, some j⟩).outcome = 0 ∧
    (AnthropicHttp.run (some k) ⟨200, some j⟩).stdout = [dumps j] ∧
    exitCode (AnthropicSdk.run c .failure).outcome = 1 ∧
    exitCode (AnthropicSdk.run c (.success j)).outcome = 0 ∧
    (AnthropicSdk.run c (.success j)).stdout = [dumps j] := by
  refine ⟨rfl, ?_, ?_, ?_, rfl, rfl, rfl⟩
  · simp [AnthropicHttp.run, hk, if_pos (⟨h4, h6⟩ : 400 ≤ status ∧ status < 600),
      exitCode]
  · simp [AnthropicHttp.run, hk, exitCode]
  · simp [AnthropicHttp.run, hk]

/-- C7 witness at a concrete key, statuses and bodies. -/
theorem process_exit_codes_witness :
    exitCode (AnthropicHttp.run none ⟨200, some (Json.obj [])⟩).outcome = 1 ∧
    exitCode (AnthropicHttp.run (some "sk-test") ⟨500, none⟩).outcome = 1 ∧
    exitCode (AnthropicHttp.run (some "sk-test") ⟨200, some (Json.obj [])⟩).outcome = 0 ∧
    (AnthropicHttp.run (some "sk-test") ⟨200, some (Json.obj [])⟩).stdout =
      [dumps (Json.obj [])] ∧
    exitCode (AnthropicSdk.run .defaultClient .failure).outcome = 1 ∧
    exitCode (AnthropicSdk.run .defaultClient (.success (Json.obj []))).outcome = 0 ∧
    (AnthropicSdk.run .defaultClient (.success (Json.obj []))).stdout =
      [dumps (Json.obj [])] :=
  process_exit_codes ⟨200, some (Json.obj [])⟩ "sk-test" (by decide)
    500 (by decide) (by decide) none (Json.obj []) .defaultClient

/-- C8: each script is deterministic in its inputs: two invocations
against the same environment value and the same endpoint behaviour
produce identical traces, standard output included; no hidden state is
carried between runs. -/
theorem runs_are_deterministic
    (key : Option String) (resp : AnthropicHttp.HttpResponse)
    (c : AnthropicSdk.Client) (r : AnthropicSdk.SdkReply)
    (oc : OpenAISdk.Client) (orr : OpenAISdk.SdkReply) :
    (AnthropicHttp.runTwice key resp).1 = (AnthropicHttp.runTwice key resp).2 ∧
    (AnthropicSdk.runTwice c r).1 = (AnthropicSdk.runTwice c r).2 ∧
    (OpenAISdk.runTwice oc orr).1 = (OpenAISdk.runTwice oc orr).2 :=
  ⟨rfl, rfl, rfl⟩

/-- C9: the empty-string credential is treated exactly like the absent
one: the raw HTTP script produces the identical configuration-error
trace, and the vendor SDK script builds the same default client. -/
theorem empty_key_equals_absent_key (resp : AnthropicHttp.HttpResponse) :
    AnthropicHttp.run (some "") resp = AnthropicHttp.run none resp ∧
    AnthropicSdk.clientOf (some "") = AnthropicSdk.clientOf none :=
  ⟨rfl, rfl⟩

/-- C10: the second-vendor script reads `OPENAI_API_KEY` once at module
load and passes the looked-up value, possibly `None`, straight to the
client constructor; if the constructor (library code) raises there, the
process fails at import with zero network calls and `run` is never
reached; otherwise `run` issues its one call unconditionally, with no
credential check of its own. -/
theorem openai_no_own_credential_check
    (env : String → Option String)
    (ctor : Option String → Option OpenAISdk.Client)
    (reply : OpenAISdk.SdkReply) (c : OpenAISdk.Client) :
    (OpenAISdk.moduleClient env).api_key = env "OPENAI_API_KEY" ∧
    (ctor (env "OPENAI_API_KEY") = none →
      OpenAISdk.process ctor env reply = ⟨.sdkError, [], []⟩) ∧
    (∀ c', ctor (env "OPENAI_API_KEY") = some c' →
      OpenAISdk.process ctor env reply = OpenAISdk.run c' reply) ∧
    (OpenAISdk.run c reply).calls = [⟨c, OpenAISdk.payload⟩] := by
  refine ⟨rfl, ?_, ?_, ?_⟩
  · intro h
    simp [OpenAISdk.process, h]
  · intro c' h
    simp [OpenAISdk.process, h]
  · cases reply <;> rfl

/-- C10 witness at a concrete environment, constructors that fail and
succeed, and a concrete reply. -/
theorem openai_no_own_credential_check_witness :
    (OpenAISdk.moduleClient (fun _ => none)).api_key = none ∧
    OpenAISdk.process (fun _ => none) (fun _ => none)
      (.success (Json.obj [])) = ⟨.sdkError, [], []⟩ ∧
    OpenAISdk.process (fun _ => some ⟨none⟩) (fun _ => none)
      (.success (Json.obj [])) = OpenAISdk.run ⟨none⟩ (.success (Json.obj [])) ∧
    (OpenAISdk.run ⟨none⟩ (.success (Json.obj []))).calls =
      [⟨⟨none⟩, OpenAISdk.payload⟩] :=
  ⟨(openai_no_own_credential_check (fun _ => none) (fun _ => none)
      (.success (Json.obj [])) ⟨none⟩).1,
   (openai_no_own_credential_check (fun _ => none) (fun _ => none)
      (.success (Json.obj [])) ⟨none⟩).2.1 rfl,
   (openai_no_own_credential_check (fun _ => none) (fun _ => some ⟨none⟩)
      (.success (Json.obj [])) ⟨none⟩).2.2.1 ⟨none⟩ rfl,
   (openai_no_own_credential_check (fun _ => none) (fun _ => some ⟨none⟩)
      (.success (Json.obj [])) ⟨none⟩).2.2.2⟩
